import Mathlib

/-!
Verification of the deCONZ REST plugin resource/attribute model
(`resource.cpp`): the descriptor catalog, the `ResourceItem` value cell
and the `Resource` attribute bag, embedded shallowly in Lean.

Modelling conventions:
* `qint64` / `int` values are Lean `Int`; machine truncations are written
  with explicit `Int.emod` at the places the C++ converts.
* `QDateTime` timestamps are `Option Int` (milliseconds since the UNIX
  epoch; `none` is an invalid/unset `QDateTime`).  The wall clock
  `QDateTime::currentDateTime()` is passed explicitly as a `now` argument,
  and the local-time zone offset (seconds east of UTC) as a `tz` argument.
* `QString` is Lean `String`; the `m_str` pointer member is `Option String`
  (`none` models a null pointer).
* The descriptor `suffix` pointers are the canonical global constants of
  `resource.cpp`, which are pairwise distinct strings, so the C++ pointer
  comparisons on suffixes are modelled as string equality.
-/

inductive ApiDataType where
  | DataTypeUnknown
  | DataTypeBool
  | DataTypeUInt8
  | DataTypeUInt16
  | DataTypeUInt32
  | DataTypeUInt64
  | DataTypeInt8
  | DataTypeInt16
  | DataTypeInt32
  | DataTypeString
  | DataTypeTime
  | DataTypeTimePattern
  deriving DecidableEq, Repr

structure ResourceItemDescriptor where
  type : ApiDataType
  suffix : String
  validMin : Int := 0
  validMax : Int := 0
  deriving DecidableEq, Repr

/-- `ResourceItemDescriptor(type, suffix)` constructor (defaults range to `[0,0]`). -/
def RID (t : ApiDataType) (s : String) : ResourceItemDescriptor :=
  { type := t, suffix := s }

/-- `ResourceItemDescriptor(type, suffix, min, max)` constructor. -/
def RIDR (t : ApiDataType) (s : String) (mn mx : Int) : ResourceItemDescriptor :=
  { type := t, suffix := s, validMin := mn, validMax := mx }

def RAttrName : String := "attr/name"
def RAttrManufacturerName : String := "attr/manufacturername"
def RAttrModelId : String := "attr/modelid"
def RAttrType : String := "attr/type"
def RAttrClass : String := "attr/class"
def RAttrUniqueId : String := "attr/uniqueid"
def RAttrSwVersion : String := "attr/swversion"
def RActionScene : String := "action/scene"
def RStateAlarm : String := "state/alarm"
def RStateAlert : String := "state/alert"
def RStateAllOn : String := "state/all_on"
def RStateAnyOn : String := "state/any_on"
def RStateBri : String := "state/bri"
def RStateButtonEvent : String := "state/buttonevent"
def RStateCarbonMonoxide : String := "state/carbonmonoxide"
def RStateColorMode : String := "state/colormode"
def RStateConsumption : String := "state/consumption"
def RStateCurrent : String := "state/current"
def RStateCt : String := "state/ct"
def RStateDark : String := "state/dark"
def RStateDaylight : String := "state/daylight"
def RStateEffect : String := "state/effect"
def RStateFire : String := "state/fire"
def RStateFlag : String := "state/flag"
def RStateHue : String := "state/hue"
def RStateHumidity : String := "state/humidity"
def RStateLastUpdated : String := "state/lastupdated"
def RStateLightLevel : String := "state/lightlevel"
def RStateLowBattery : String := "state/lowbattery"
def RStateLux : String := "state/lux"
def RStateOn : String := "state/on"
def RStateOpen : String := "state/open"
def RStateOrientationX : String := "state/orientation_x"
def RStateOrientationY : String := "state/orientation_y"
def RStateOrientationZ : String := "state/orientation_z"
def RStatePresence : String := "state/presence"
def RStatePressure : String := "state/pressure"
def RStatePower : String := "state/power"
def RStateReachable : String := "state/reachable"
def RStateSat : String := "state/sat"
def RStateSpeed : String := "state/speed"
def RStateStatus : String := "state/status"
def RStateTampered : String := "state/tampered"
def RStateTemperature : String := "state/temperature"
def RStateTiltAngle : String := "state/tiltangle"
def RStateValve : String := "state/valve"
def RStateVibration : String := "state/vibration"
def RStateVibrationStrength : String := "state/vibrationstrength"
def RStateVoltage : String := "state/voltage"
def RStateWater : String := "state/water"
def RStateX : String := "state/x"
def RStateY : String := "state/y"
def RConfigAlert : String := "config/alert"
def RConfigBattery : String := "config/battery"
def RConfigColorCapabilities : String := "config/colorcapabilities"
def RConfigCtMin : String := "config/ctmin"
def RConfigCtMax : String := "config/ctmax"
def RConfigConfigured : String := "config/configured"
def RConfigDelay : String := "config/delay"
def RConfigDisplayFlipped : String := "config/displayflipped"
def RConfigDuration : String := "config/duration"
def RConfigGroup : String := "config/group"
def RConfigHeatSetpoint : String := "config/heatsetpoint"
def RConfigHostFlags : String := "config/hostflags"
def RConfigId : String := "config/id"
def RConfigLat : String := "config/lat"
def RConfigLedIndication : String := "config/ledindication"
def RConfigLocalTime : String := "config/localtime"
def RConfigLocked : String := "config/locked"
def RConfigLong : String := "config/long"
def RConfigLevelMin : String := "config/levelmin"
def RConfigMode : String := "config/mode"
def RConfigOffset : String := "config/offset"
def RConfigOn : String := "config/on"
def RConfigPending : String := "config/pending"
def RConfigPowerup : String := "config/powerup"
def RConfigPowerOnCt : String := "config/poweronct"
def RConfigPowerOnLevel : String := "config/poweronlevel"
def RConfigReachable : String := "config/reachable"
def RConfigScheduler : String := "config/scheduler"
def RConfigSchedulerOn : String := "config/scheduleron"
def RConfigSensitivity : String := "config/sensitivity"
def RConfigSensitivityMax : String := "config/sensitivitymax"
def RConfigSunriseOffset : String := "config/sunriseoffset"
def RConfigSunsetOffset : String := "config/sunsetoffset"
def RConfigTemperature : String := "config/temperature"
def RConfigTholdDark : String := "config/tholddark"
def RConfigTholdOffset : String := "config/tholdoffset"
def RConfigUrl : String := "config/url"
def RConfigUsertest : String := "config/usertest"
def RConfigWindowCoveringType : String := "config/windowcoveringtype"
def RConfigUbisysJ1Mode : String := "config/ubisys_j1_mode"
def RConfigUbisysJ1WindowCoveringType : String := "config/ubisys_j1_windowcoveringtype"
def RConfigUbisysJ1ConfigurationAndStatus : String := "config/ubisys_j1_configurationandstatus"
def RConfigUbisysJ1InstalledOpenLimitLift : String := "config/ubisys_j1_installedopenlimitlift"
def RConfigUbisysJ1InstalledClosedLimitLift : String := "config/ubisys_j1_installedclosedlimitlift"
def RConfigUbisysJ1InstalledOpenLimitTilt : String := "config/ubisys_j1_installedopenlimittilt"
def RConfigUbisysJ1InstalledClosedLimitTilt : String := "config/ubisys_j1_installedclosedlimittilt"
def RConfigUbisysJ1TurnaroundGuardTime : String := "config/ubisys_j1_turnaroundguardtime"
def RConfigUbisysJ1LiftToTiltTransitionSteps : String := "config/ubisys_j1_lifttotilttransitionsteps"
def RConfigUbisysJ1TotalSteps : String := "config/ubisys_j1_totalsteps"
def RConfigUbisysJ1LiftToTiltTransitionSteps2 : String := "config/ubisys_j1_lifttotilttransitionsteps2"
def RConfigUbisysJ1TotalSteps2 : String := "config/ubisys_j1_totalsteps2"
def RConfigUbisysJ1AdditionalSteps : String := "config/ubisys_j1_additionalsteps"
def RConfigUbisysJ1InactivePowerThreshold : String := "config/ubisys_j1_inactivepowerthreshold"
def RConfigUbisysJ1StartupSteps : String := "config/ubisys_j1_startupsteps"

open ApiDataType in
/-- The descriptor table populated by `initResourceDescriptors()`, in
registration order. -/
def rItemDescriptors : List ResourceItemDescriptor :=
  [ RID DataTypeString RAttrName
  , RID DataTypeString RAttrManufacturerName
  , RID DataTypeString RAttrModelId
  , RID DataTypeString RAttrType
  , RID DataTypeString RAttrClass
  , RID DataTypeString RAttrUniqueId
  , RID DataTypeString RAttrSwVersion
  , RID DataTypeBool RStateAlarm
  , RID DataTypeString RStateAlert
  , RID DataTypeBool RStateAllOn
  , RID DataTypeBool RStateAnyOn
  , RID DataTypeUInt8 RStateBri
  , RID DataTypeInt32 RStateButtonEvent
  , RID DataTypeBool RStateCarbonMonoxide
  , RID DataTypeString RStateColorMode
  , RID DataTypeUInt64 RStateConsumption
  , RID DataTypeUInt16 RStateCurrent
  , RID DataTypeUInt16 RStateCt
  , RID DataTypeBool RStateDark
  , RID DataTypeBool RStateDaylight
  , RID DataTypeString RStateEffect
  , RID DataTypeBool RStateFire
  , RID DataTypeBool RStateFlag
  , RID DataTypeUInt16 RStateHue
  , RIDR DataTypeUInt16 RStateHumidity 0 10000
  , RID DataTypeTime RStateLastUpdated
  , RIDR DataTypeUInt16 RStateLightLevel 0 0xfffe
  , RID DataTypeBool RStateLowBattery
  , RID DataTypeUInt32 RStateLux
  , RID DataTypeBool RStateOn
  , RID DataTypeBool RStateOpen
  , RID DataTypeInt16 RStateOrientationX
  , RID DataTypeInt16 RStateOrientationY
  , RID DataTypeInt16 RStateOrientationZ
  , RID DataTypeBool RStatePresence
  , RIDR DataTypeInt16 RStatePressure 0 32767
  , RID DataTypeInt16 RStatePower
  , RID DataTypeBool RStateReachable
  , RID DataTypeUInt8 RStateSat
  , RID DataTypeString RActionScene
  , RIDR DataTypeUInt8 RStateSpeed 0 6
  , RID DataTypeInt32 RStateStatus
  , RID DataTypeBool RStateTampered
  , RIDR DataTypeInt16 RStateTemperature (-27315) 32767
  , RID DataTypeUInt16 RStateTiltAngle
  , RID DataTypeUInt8 RStateValve
  , RID DataTypeBool RStateVibration
  , RID DataTypeUInt16 RStateVibrationStrength
  , RID DataTypeUInt16 RStateVoltage
  , RID DataTypeBool RStateWater
  , RID DataTypeUInt16 RStateX
  , RID DataTypeUInt16 RStateY
  , RID DataTypeString RConfigAlert
  , RIDR DataTypeUInt8 RConfigBattery 0 100
  , RID DataTypeUInt16 RConfigColorCapabilities
  , RID DataTypeUInt16 RConfigCtMin
  , RID DataTypeUInt16 RConfigCtMax
  , RID DataTypeBool RConfigConfigured
  , RID DataTypeUInt16 RConfigDelay
  , RID DataTypeBool RConfigDisplayFlipped
  , RID DataTypeUInt16 RConfigDuration
  , RID DataTypeString RConfigGroup
  , RIDR DataTypeInt16 RConfigHeatSetpoint 500 3000
  , RID DataTypeUInt32 RConfigHostFlags
  , RID DataTypeUInt32 RConfigId
  , RID DataTypeString RConfigLat
  , RID DataTypeBool RConfigLedIndication
  , RID DataTypeTime RConfigLocalTime
  , RID DataTypeBool RConfigLocked
  , RID DataTypeString RConfigLong
  , RID DataTypeUInt8 RConfigLevelMin
  , RID DataTypeString RConfigMode
  , RIDR DataTypeInt16 RConfigOffset (-500) 500
  , RID DataTypeBool RConfigOn
  , RID DataTypeUInt8 RConfigPending
  , RID DataTypeUInt32 RConfigPowerup
  , RID DataTypeUInt8 RConfigPowerOnLevel
  , RID DataTypeUInt16 RConfigPowerOnCt
  , RID DataTypeBool RConfigReachable
  , RID DataTypeString RConfigScheduler
  , RID DataTypeBool RConfigSchedulerOn
  , RID DataTypeUInt8 RConfigSensitivity
  , RID DataTypeUInt8 RConfigSensitivityMax
  , RIDR DataTypeInt8 RConfigSunriseOffset (-120) 120
  , RIDR DataTypeInt8 RConfigSunsetOffset (-120) 120
  , RIDR DataTypeInt16 RConfigTemperature (-27315) 32767
  , RIDR DataTypeUInt16 RConfigTholdDark 0 0xfffe
  , RIDR DataTypeUInt16 RConfigTholdOffset 1 0xfffe
  , RID DataTypeString RConfigUrl
  , RID DataTypeBool RConfigUsertest
  , RID DataTypeUInt8 RConfigWindowCoveringType
  , RID DataTypeUInt8 RConfigUbisysJ1Mode
  , RID DataTypeUInt8 RConfigUbisysJ1WindowCoveringType
  , RID DataTypeUInt8 RConfigUbisysJ1ConfigurationAndStatus
  , RID DataTypeUInt16 RConfigUbisysJ1InstalledOpenLimitLift
  , RID DataTypeUInt16 RConfigUbisysJ1InstalledClosedLimitLift
  , RID DataTypeUInt16 RConfigUbisysJ1InstalledOpenLimitTilt
  , RID DataTypeUInt16 RConfigUbisysJ1InstalledClosedLimitTilt
  , RID DataTypeUInt8 RConfigUbisysJ1TurnaroundGuardTime
  , RID DataTypeUInt16 RConfigUbisysJ1LiftToTiltTransitionSteps
  , RID DataTypeUInt16 RConfigUbisysJ1TotalSteps
  , RID DataTypeUInt16 RConfigUbisysJ1LiftToTiltTransitionSteps2
  , RID DataTypeUInt16 RConfigUbisysJ1TotalSteps2
  , RID DataTypeUInt8 RConfigUbisysJ1AdditionalSteps
  , RID DataTypeUInt16 RConfigUbisysJ1InactivePowerThreshold
  , RID DataTypeUInt16 RConfigUbisysJ1StartupSteps ]

/-- `QString::endsWith` (case sensitive): the candidate ends with the
given suffix string. -/
def qEndsWith (s suffix : String) : Bool :=
  List.isSuffixOf suffix.data s.data

/-- `getResourceItemDescriptor(str, descr)`: linear scan of the descriptor
table in registration order; first descriptor whose suffix the candidate
ends with wins; `none` models the `return false` / untouched `descr` case. -/
def getResourceItemDescriptor (str : String) : Option ResourceItemDescriptor :=
  rItemDescriptors.find? (fun d => qEndsWith str d.suffix)

/-! ### Calendar model for `QDateTime`

`QDateTime` with a fixed UTC offset is modelled by seconds since the UNIX
epoch together with an offset; the Gregorian conversion used by Qt is the
standard proleptic-Gregorian civil-from-days / days-from-civil algorithm. -/

/-- Gregorian date (year, month, day) of a day count since 1970-01-01. -/
def civilFromDays (z0 : Int) : Int × Int × Int :=
  let z := z0 + 719468
  let era := Int.ediv z 146097
  let doe := z - era * 146097
  let yoe := Int.ediv (doe - Int.ediv doe 1460 + Int.ediv doe 36524 - Int.ediv doe 146096) 365
  let y := yoe + era * 400
  let doy := doe - (365 * yoe + Int.ediv yoe 4 - Int.ediv yoe 100)
  let mp := Int.ediv (5 * doy + 2) 153
  let d := doy - Int.ediv (153 * mp + 2) 5 + 1
  let m := if mp < 10 then mp + 3 else mp - 9
  (if m <= 2 then y + 1 else y, m, d)

/-- Day count since 1970-01-01 of a Gregorian date. -/
def daysFromCivil (y0 m d : Int) : Int :=
  let y := if m <= 2 then y0 - 1 else y0
  let era := Int.ediv y 400
  let yoe := y - era * 400
  let mp := if m > 2 then m - 3 else m + 9
  let doy := Int.ediv (153 * mp + 2) 5 + d - 1
  let doe := yoe * 365 + Int.ediv yoe 4 - Int.ediv yoe 100 + doy
  era * 146097 + doe - 719468

def natDigitChar (n : Nat) : Char := Char.ofNat (48 + n % 10)

def pad2 (n : Nat) : List Char := [natDigitChar (n / 10), natDigitChar n]

def pad4 (n : Nat) : List Char :=
  [natDigitChar (n / 1000), natDigitChar (n / 100), natDigitChar (n / 10), natDigitChar n]

/-- `QDateTime::toString("yyyy-MM-ddTHH:mm:ss")` of a date-time whose
broken-down civil time is `secs` seconds since the epoch (the caller has
already applied the UTC offset of the `QDateTime`). -/
def formatDateTime (secs : Int) : String :=
  let days := Int.ediv secs 86400
  let sod := (Int.emod secs 86400).toNat
  let ymd := civilFromDays days
  String.mk (pad4 ymd.1.toNat ++ '-' :: pad2 ymd.2.1.toNat ++ '-' :: pad2 ymd.2.2.toNat ++
    'T' :: pad2 (sod / 3600) ++ ':' :: pad2 (sod / 60 % 60) ++ ':' :: pad2 (sod % 60))

def isLeapYear (y : Int) : Bool :=
  (Int.emod y 4 == 0 && Int.emod y 100 != 0) || Int.emod y 400 == 0

def daysInMonth (y m : Int) : Int :=
  if m == 2 then (if isLeapYear y then 29 else 28)
  else if m == 4 || m == 6 || m == 9 || m == 11 then 30
  else 31

def digitVal (c : Char) : Option Nat :=
  if c.isDigit then some (c.toNat - 48) else none

/-- `QDateTime::fromString(s, "yyyy-MM-ddTHH:mm:ss")`: on an exact
structural match with a valid calendar date and time-of-day, the civil
seconds-since-epoch of the parsed broken-down time (the caller applies the
local UTC offset afterwards); `none` models an invalid `QDateTime`. -/
def parseDateTime (s : String) : Option Int :=
  match s.data with
  | [y1, y2, y3, y4, s1, mo1, mo2, s2, d1, d2, t1, h1, h2, s3, mi1, mi2, s4, se1, se2] =>
    if s1 == '-' && s2 == '-' && t1 == 'T' && s3 == ':' && s4 == ':' then
      match digitVal y1, digitVal y2, digitVal y3, digitVal y4,
            digitVal mo1, digitVal mo2, digitVal d1, digitVal d2,
            digitVal h1, digitVal h2, digitVal mi1, digitVal mi2,
            digitVal se1, digitVal se2 with
      | some a1, some a2, some a3, some a4, some b1, some b2, some c1, some c2,
        some e1, some e2, some f1, some f2, some g1, some g2 =>
        let y : Int := Int.ofNat (a1 * 1000 + a2 * 100 + a3 * 10 + a4)
        let mo : Int := Int.ofNat (b1 * 10 + b2)
        let d : Int := Int.ofNat (c1 * 10 + c2)
        let h : Int := Int.ofNat (e1 * 10 + e2)
        let mi : Int := Int.ofNat (f1 * 10 + f2)
        let se : Int := Int.ofNat (g1 * 10 + g2)
        if 1 <= y && 1 <= mo && mo <= 12 && 1 <= d && d <= daysInMonth y mo &&
           h <= 23 && mi <= 59 && se <= 59 then
          some (daysFromCivil y mo d * 86400 + h * 3600 + mi * 60 + se)
        else none
      | _, _, _, _, _, _, _, _, _, _, _, _, _, _ => none
    else none
  | _ => none

/-! ### `QVariant` -/

/-- The `QVariant` values the resource layer traffics in.  `dateTime`
carries epoch milliseconds of a local-time `QDateTime`; `doubleV d` is a
variant of type `double` whose value is the exact integer `d` (the
`(double)m_num` cast in `toVariant` — rounding of integers beyond 2^53 is
not modelled, no claim touches it). -/
inductive QVariant where
  | invalid
  | str (s : String)
  | boolV (b : Bool)
  | intV (n : Int)
  | doubleV (d : Int)
  | dateTime (msecs : Int)
  deriving DecidableEq, Repr

/-- `QVariant::toBool`. -/
def QVariant.toBoolQ : QVariant → Bool
  | .invalid => false
  | .str s => !(s.toLower == "" || s.toLower == "0" || s.toLower == "false")
  | .boolV b => b
  | .intV n => n != 0
  | .doubleV d => d != 0
  | .dateTime _ => false

/-- `QVariant::toString`; a `QDateTime` renders in ISO format in its own
(local) time zone, hence the `tz` offset argument (seconds east of UTC). -/
def QVariant.toStringQ (tz : Int) : QVariant → String
  | .invalid => ""
  | .str s => s
  | .boolV b => if b then "true" else "false"
  | .intV n => toString n
  | .doubleV d => toString d
  | .dateTime ms => formatDateTime (Int.ediv ms 1000 + tz)

def parseIntDigits : List Char → Option Nat → Option Nat
  | [], acc => acc
  | c :: cs, acc =>
    match digitVal c with
    | some d => parseIntDigits cs (some ((acc.getD 0) * 10 + d))
    | none => none

/-- `QString::toInt`-style integer parse (optional sign, all digits). -/
def parseIntStr (s : String) : Option Int :=
  match s.data with
  | '-' :: cs => (parseIntDigits cs none).map (fun n => -(Int.ofNat n))
  | '+' :: cs => (parseIntDigits cs none).map Int.ofNat
  | cs => (parseIntDigits cs none).map Int.ofNat

/-- `QVariant::toInt(&ok)`: `none` models `ok == false`; the result is a
C `int`, so it must fit in 32 bits. -/
def QVariant.toIntQ : QVariant → Option Int
  | .invalid => none
  | .str s =>
    match parseIntStr s with
    | some n => if -2147483648 <= n && n <= 2147483647 then some n else none
    | none => none
  | .boolV b => some (if b then 1 else 0)
  | .intV n => if -2147483648 <= n && n <= 2147483647 then some n else none
  | .doubleV d => if -2147483648 <= d && d <= 2147483647 then some d else none
  | .dateTime _ => none

/-! ### `ResourceItem` -/

structure ResourceItem where
  m_num : Int
  m_numPrev : Int
  m_str : Option String
  m_rid : ResourceItemDescriptor
  m_lastSet : Option Int
  m_lastChanged : Option Int
  m_rulesInvolved : List Int
  deriving DecidableEq, Repr

namespace ResourceItem

open ApiDataType

/-- `ResourceItem::ResourceItem(const ResourceItemDescriptor&)`: allocates
the string buffer only for String/Time/TimePattern. -/
def mk' (rid : ResourceItemDescriptor) : ResourceItem :=
  { m_num := 0
    m_numPrev := 0
    m_str := if rid.type = DataTypeString ∨ rid.type = DataTypeTime ∨
                rid.type = DataTypeTimePattern then some "" else none
    m_rid := rid
    m_lastSet := none
    m_lastChanged := none
    m_rulesInvolved := [] }

/-- `ResourceItem::toString`; `tz` is the local UTC offset in seconds used
by `QDateTime::fromMSecsSinceEpoch` (the `state/lastupdated` special case
forces offset 0, i.e. UTC).  The missing-buffer fallthrough returns
`rItemStrings[0]`, the invalid (empty) string. -/
def toStringR (it : ResourceItem) (tz : Int) : String :=
  if it.m_rid.type = DataTypeString ∨ it.m_rid.type = DataTypeTimePattern then
    match it.m_str with
    | some s => s
    | none => ""
  else if it.m_rid.type = DataTypeTime then
    match it.m_str with
    | some _ =>
      if it.m_rid.suffix = RStateLastUpdated then
        formatDateTime (Int.ediv it.m_num 1000)
      else
        formatDateTime (Int.ediv it.m_num 1000 + tz)
    | none => ""
  else ""

/-- `ResourceItem::toNumber`. -/
def toNumber (it : ResourceItem) : Int := it.m_num

/-- `ResourceItem::toNumberPrevious`. -/
def toNumberPrevious (it : ResourceItem) : Int := it.m_numPrev

/-- `ResourceItem::toBool`. -/
def toBoolR (it : ResourceItem) : Bool := it.m_num != 0

/-- `ResourceItem::setValue(const QString&)`; `now` is
`QDateTime::currentDateTime()`. -/
def setValueStr (it : ResourceItem) (val : String) (now : Int) : Bool × ResourceItem :=
  match it.m_str with
  | some s =>
    let it1 := { it with m_lastSet := some now }
    if s ≠ val then
      (true, { it1 with m_str := some val, m_lastChanged := some now })
    else
      (true, it1)
  | none => (false, it)

/-- The accepted-path body shared by the numeric writes: save the previous
value, stamp `m_lastSet`, and store/stamp `m_lastChanged` only on change. -/
def setNumInner (it : ResourceItem) (val now : Int) : ResourceItem :=
  let it1 := { it with m_lastSet := some now, m_numPrev := it.m_num }
  if it.m_num ≠ val then
    { it1 with m_num := val, m_lastChanged := some now }
  else
    it1

/-- `ResourceItem::setValue(qint64)`. -/
def setValueNum (it : ResourceItem) (val now : Int) : Bool × ResourceItem :=
  if (it.m_rid.validMin ≠ 0 ∨ it.m_rid.validMax ≠ 0) ∧
     (val < it.m_rid.validMin ∨ val > it.m_rid.validMax) then
    (false, it)
  else
    (true, setNumInner it val now)

/-- `ResourceItem::setValue(const QVariant&)`. -/
def setValueVariant (it : ResourceItem) (val : QVariant) (now tz : Int) :
    Bool × ResourceItem :=
  if val = QVariant.invalid then
    (true, { it with m_lastSet := none, m_lastChanged := none })
  else if it.m_rid.type = DataTypeString ∨ it.m_rid.type = DataTypeTimePattern then
    match it.m_str with
    | some s =>
      let v := val.toStringQ tz
      let it1 := { it with m_lastSet := some now }
      if s ≠ v then
        (true, { it1 with m_str := some v, m_lastChanged := some now })
      else
        (true, it1)
    | none => (false, it)
  else if it.m_rid.type = DataTypeBool then
    (true, setNumInner it (if val.toBoolQ then 1 else 0) now)
  else if it.m_rid.type = DataTypeTime then
    match val with
    | .str s =>
      match parseDateTime s with
      | some civilSecs => (true, setNumInner it ((civilSecs - tz) * 1000) now)
      | none => (false, it)
    | .dateTime ms => (true, setNumInner it ms now)
    | _ => (false, it)
  else
    match val.toIntQ with
    | some n =>
      if it.m_rid.validMin = 0 ∧ it.m_rid.validMax = 0 then
        (true, setNumInner it n now)
      else if it.m_rid.validMin ≤ n ∧ n ≤ it.m_rid.validMax then
        (true, setNumInner it n now)
      else
        (false, it)
    | none => (false, it)

/-- `ResourceItem::lastSet`. -/
def lastSet (it : ResourceItem) : Option Int := it.m_lastSet

/-- `ResourceItem::lastChanged`. -/
def lastChanged (it : ResourceItem) : Option Int := it.m_lastChanged

/-- `ResourceItem::toVariant`. -/
def toVariant (it : ResourceItem) (tz : Int) : QVariant :=
  if it.m_lastSet = none then
    QVariant.invalid
  else if it.m_rid.type = DataTypeString ∨ it.m_rid.type = DataTypeTimePattern then
    match it.m_str with
    | some s => QVariant.str s
    | none => QVariant.str ""
  else if it.m_rid.type = DataTypeBool then
    QVariant.boolV (it.m_num != 0)
  else if it.m_rid.type = DataTypeTime then
    QVariant.str (it.toStringR tz)
  else
    QVariant.doubleV it.m_num

/-- `ResourceItem::inRule(int)`: the scan compares each stored handle
through a `quint16` loop variable, i.e. reduced mod 2^16, against the full
`int` argument. -/
def inRule (it : ResourceItem) (ruleHandle : Int) : ResourceItem :=
  if it.m_rulesInvolved.any (fun handle => handle % 65536 == ruleHandle) then
    it
  else
    { it with m_rulesInvolved := it.m_rulesInvolved ++ [ruleHandle] }

/-- `ResourceItem::rulesInvolved` (returns a copy). -/
def rulesInvolved (it : ResourceItem) : List Int := it.m_rulesInvolved

end ResourceItem

/-! ### `Resource` (attribute bag) -/

/-- First index in the list satisfying the predicate; models the pointer
returned by the C++ linear scans (a pointer into `m_rItems` is identified
with its index). -/
def firstIdxWith (p : ResourceItem → Bool) : List ResourceItem → Option Nat
  | [] => none
  | x :: xs => if p x then some 0 else (firstIdxWith p xs).map (· + 1)

/-- `Resource`: the entity-type prefix string is not modelled (no claim
touches it); the bag is the `m_rItems` vector. -/
structure Resource where
  m_rItems : List ResourceItem
  deriving Repr

namespace Resource

/-- `Resource::item(const char*)`: first item whose descriptor suffix
equals the given canonical suffix; `none` models the null pointer. -/
def item (r : Resource) (suffix : String) : Option ResourceItem :=
  r.m_rItems.find? (fun it => it.m_rid.suffix == suffix)

/-- The index of the item `Resource::item` returns (pointer identity). -/
def itemIndex (r : Resource) (suffix : String) : Option Nat :=
  firstIdxWith (fun it => it.m_rid.suffix == suffix) r.m_rItems

/-- `Resource::addItem(ApiDataType, const char*)`: result is the returned
pointer (as an index into the resulting bag, `none` for null) and the new
bag.  If the suffix is already present the existing slot is returned and
nothing is inserted; otherwise the catalog is scanned for an exact
`(suffix, type)` match; on a miss (`DBG_Assert(0)` and the error printf)
the null `it` from the initial lookup is returned. -/
def addItem (r : Resource) (type : ApiDataType) (suffix : String) :
    Option Nat × Resource :=
  match r.itemIndex suffix with
  | some i => (some i, r)
  | none =>
    match rItemDescriptors.find? (fun d => d.suffix == suffix && d.type == type) with
    | some d => (some r.m_rItems.length, ⟨r.m_rItems ++ [ResourceItem.mk' d]⟩)
    | none => (none, r)

/-- `Resource::removeItem(const char*)`: on the first suffix match the
slot is overwritten with the last element and the vector shrinks by one
(swap-and-pop); no match leaves the bag unchanged. -/
def removeItem (r : Resource) (suffix : String) : Resource :=
  match r.itemIndex suffix with
  | none => r
  | some i =>
    match r.m_rItems.getLast? with
    | none => r
    | some last => ⟨(r.m_rItems.set i last).dropLast⟩

/-- `Resource::itemCount`. -/
def itemCount (r : Resource) : Nat := r.m_rItems.length

/-- `Resource::itemForIndex(size_t)`. -/
def itemForIndex (r : Resource) (idx : Nat) : Option ResourceItem :=
  if h : idx < r.m_rItems.length then some (r.m_rItems.get ⟨idx, h⟩) else none

/-- The per-bag invariant: at most one slot per suffix. -/
def nodupSuffixes (r : Resource) : Prop :=
  (r.m_rItems.map (fun it => it.m_rid.suffix)).Nodup

end Resource

/-! ### Helper lemmas -/

theorem setNumInner_eq (it : ResourceItem) (v now : Int) :
    it.setNumInner v now =
      { it with
        m_num := v
        m_numPrev := it.m_num
        m_lastSet := some now
        m_lastChanged := if it.m_num = v then it.m_lastChanged else some now } := by
  cases it with
  | mk a b c d e f g =>
    by_cases h : a = v
    · simp [ResourceItem.setNumInner, h]
    · simp [ResourceItem.setNumInner, h]

/-- C1: `setValue(qint64)` accepts everything when the descriptor range is
`[0,0]`; with a nonzero range it fails exactly on the out-of-range values,
and a failing call leaves the item (value, previous value and both
timestamps) untouched. -/
theorem c1_setNumber_range :
    (∀ (it : ResourceItem) (v now : Int),
      it.m_rid.validMin = 0 → it.m_rid.validMax = 0 →
      (it.setValueNum v now).1 = true) ∧
    (∀ (it : ResourceItem) (v now : Int),
      (it.m_rid.validMin ≠ 0 ∨ it.m_rid.validMax ≠ 0) →
      (((it.setValueNum v now).1 = false) ↔
        (v < it.m_rid.validMin ∨ v > it.m_rid.validMax)) ∧
      ((v < it.m_rid.validMin ∨ v > it.m_rid.validMax) →
        (it.setValueNum v now).2 = it)) := by
  constructor
  · intro it v now h1 h2
    simp [ResourceItem.setValueNum, h1, h2]
  · intro it v now h
    constructor
    · by_cases hc : v < it.m_rid.validMin ∨ v > it.m_rid.validMax
      · simp [ResourceItem.setValueNum, h, hc]
      · simp [ResourceItem.setValueNum, hc]
    · intro hc
      simp [ResourceItem.setValueNum, h, hc]

def c1itemFree : ResourceItem := ResourceItem.mk' (RID ApiDataType.DataTypeBool RStateOn)

def c1itemRanged : ResourceItem := ResourceItem.mk' (RIDR ApiDataType.DataTypeUInt8 RConfigBattery 0 100)

/-- Witness for `c1_setNumber_range` at the `state/on` (no range) and
`config/battery` (`[0,100]`) descriptors. -/
theorem c1_witness :
    (c1itemFree.setValueNum 123456789 3).1 = true ∧
    (c1itemRanged.setValueNum 101 3).1 = false := by
  constructor
  · exact c1_setNumber_range.1 c1itemFree 123456789 3 (by decide) (by decide)
  · exact (c1_setNumber_range.2 c1itemRanged 101 3 (Or.inr (by decide))).1.mpr
      (Or.inr (by decide))

open ApiDataType in
theorem setValueVariant_cases (it : ResourceItem) (v : QVariant) (now tz : Int)
    (hv : v ≠ QVariant.invalid) :
    it.setValueVariant v now tz = (false, it) ∨
    (∃ w, it.setValueVariant v now tz = (true, it.setNumInner w now)) ∨
    (∃ s w, it.m_str = some s ∧ it.setValueVariant v now tz =
      (true, if s = w then { it with m_lastSet := some now }
             else { it with
                    m_lastSet := some now
                    m_str := some w
                    m_lastChanged := some now })) := by
  unfold ResourceItem.setValueVariant
  rw [if_neg hv]
  by_cases h1 : it.m_rid.type = DataTypeString ∨ it.m_rid.type = DataTypeTimePattern
  · rw [if_pos h1]
    cases hs : it.m_str with
    | none => left; simp
    | some s =>
      right; right
      refine ⟨s, v.toStringQ tz, rfl, ?_⟩
      by_cases he : s = v.toStringQ tz
      · simp [he]
      · simp [he]
  · rw [if_neg h1]
    by_cases h2 : it.m_rid.type = DataTypeBool
    · rw [if_pos h2]
      right; left; exact ⟨_, rfl⟩
    · rw [if_neg h2]
      by_cases h3 : it.m_rid.type = DataTypeTime
      · rw [if_pos h3]
        cases v with
        | invalid => exact absurd rfl hv
        | str s =>
          cases hp : parseDateTime s with
          | none => left; simp [hp]
          | some cs => right; left; exact ⟨(cs - tz) * 1000, by simp [hp]⟩
        | boolV b => left; rfl
        | intV n => left; rfl
        | doubleV d => left; rfl
        | dateTime ms => right; left; exact ⟨ms, rfl⟩
      · rw [if_neg h3]
        cases hn : v.toIntQ with
        | none => left; simp [hn]
        | some n =>
          simp only [hn]
          by_cases hr : it.m_rid.validMin = 0 ∧ it.m_rid.validMax = 0
          · rw [if_pos hr]; right; left; exact ⟨n, rfl⟩
          · rw [if_neg hr]
            by_cases hr2 : it.m_rid.validMin ≤ n ∧ n ≤ it.m_rid.validMax
            · rw [if_pos hr2]; right; left; exact ⟨n, rfl⟩
            · rw [if_neg hr2]; left; rfl

theorem setValueNum_accept_eq (it : ResourceItem) (v now : Int)
    (hacc : (it.setValueNum v now).1 = true) :
    (it.setValueNum v now).2 = it.setNumInner v now := by
  unfold ResourceItem.setValueNum at hacc ⊢
  split_ifs at hacc ⊢ with h
  rfl

theorem setNumInner_fields (it : ResourceItem) (v now : Int) :
    (it.setNumInner v now).m_num = v ∧
    (it.setNumInner v now).m_str = it.m_str ∧
    (it.setNumInner v now).m_rid = it.m_rid ∧
    (it.setNumInner v now).m_lastSet = some now ∧
    (it.setNumInner v now).m_lastChanged =
      (if it.m_num = v then it.m_lastChanged else some now) := by
  rw [setNumInner_eq]
  exact ⟨rfl, rfl, rfl, rfl, rfl⟩

theorem setValueNum_fst_eq_of_rid (it it2 : ResourceItem) (v now now2 : Int)
    (h : it2.m_rid = it.m_rid) :
    (it2.setValueNum v now2).1 = (it.setValueNum v now).1 := by
  unfold ResourceItem.setValueNum
  rw [h]
  split_ifs <;> rfl

def c2clearItem : ResourceItem :=
  { m_num := 7, m_numPrev := 0, m_str := none
    m_rid := RID ApiDataType.DataTypeBool RStateOn
    m_lastSet := some 5, m_lastChanged := some 5, m_rulesInvolved := [] }

/-- C2 counterexample: `setValue(QVariant())` on an item holding `7` with
both timestamps set is an accepted call (`true`) that leaves the stored
value untouched, yet it does not set `lastSet` to the call time (it clears
it) and it rewrites `lastChanged` even though the value did not change —
so the claim quantified over every accepted `setVariant` call is false. -/
theorem c2_counterexample :
    (c2clearItem.setValueVariant QVariant.invalid 9 0).1 = true ∧
    (c2clearItem.setValueVariant QVariant.invalid 9 0).2.m_num = c2clearItem.m_num ∧
    (c2clearItem.setValueVariant QVariant.invalid 9 0).2.m_str = c2clearItem.m_str ∧
    (c2clearItem.setValueVariant QVariant.invalid 9 0).2.m_lastSet ≠ some 9 ∧
    (c2clearItem.setValueVariant QVariant.invalid 9 0).2.m_lastChanged ≠
      c2clearItem.m_lastChanged := by
  decide

/-- C2 (amended): for every accepted write of a valid (non-empty) value
through `setValue(qint64)`, `setValue(QString)` or `setValue(QVariant)`,
`lastSet` is stamped with the call time, and `lastChanged` is re-stamped
exactly when the stored value (numeric value together with string buffer)
actually changed; the `setVariant` of an invalid variant instead clears
both timestamps (see `c2_counterexample`).  Calling `setValue(qint64)`
twice in a row with the same value succeeds both times, restamps
`lastSet` each time, and the second call leaves `lastChanged` exactly
where the first call put it. -/
theorem c2_timestamps_amended :
    (∀ (it : ResourceItem) (v now : Int),
      (it.setValueNum v now).1 = true →
      (it.setValueNum v now).2.m_lastSet = some now ∧
      (it.setValueNum v now).2.m_lastChanged =
        (if it.m_num = v then it.m_lastChanged else some now)) ∧
    (∀ (it : ResourceItem) (s : String) (now : Int),
      (it.setValueStr s now).1 = true →
      (it.setValueStr s now).2.m_lastSet = some now ∧
      (it.setValueStr s now).2.m_lastChanged =
        (if it.m_str = some s then it.m_lastChanged else some now)) ∧
    (∀ (it : ResourceItem) (v : QVariant) (now tz : Int),
      v ≠ QVariant.invalid →
      (it.setValueVariant v now tz).1 = true →
      (it.setValueVariant v now tz).2.m_lastSet = some now ∧
      (it.setValueVariant v now tz).2.m_lastChanged =
        (if (it.setValueVariant v now tz).2.m_num = it.m_num ∧
            (it.setValueVariant v now tz).2.m_str = it.m_str
         then it.m_lastChanged else some now)) ∧
    (∀ (it : ResourceItem) (x now1 now2 : Int),
      (it.setValueNum x now1).1 = true →
      ((it.setValueNum x now1).2.setValueNum x now2).1 = true ∧
      ((it.setValueNum x now1).2.setValueNum x now2).2.m_lastSet = some now2 ∧
      ((it.setValueNum x now1).2.setValueNum x now2).2.m_lastChanged =
        (it.setValueNum x now1).2.m_lastChanged ∧
      (it.m_num ≠ x → (it.setValueNum x now1).2.m_lastChanged = some now1)) := by
  have hnum : ∀ (it : ResourceItem) (v now : Int),
      (it.setValueNum v now).1 = true →
      (it.setValueNum v now).2.m_lastSet = some now ∧
      (it.setValueNum v now).2.m_lastChanged =
        (if it.m_num = v then it.m_lastChanged else some now) := by
    intro it v now hacc
    rw [setValueNum_accept_eq it v now hacc]
    exact ⟨(setNumInner_fields it v now).2.2.2.1, (setNumInner_fields it v now).2.2.2.2⟩
  refine ⟨hnum, ?_, ?_, ?_⟩
  · intro it s now hacc
    cases hs : it.m_str with
    | none => simp [ResourceItem.setValueStr, hs] at hacc
    | some s0 =>
      by_cases he : s0 = s
      · simp [ResourceItem.setValueStr, hs, he]
      · simp [ResourceItem.setValueStr, hs, he]
  · intro it v now tz hv hacc
    rcases setValueVariant_cases it v now tz hv with h | ⟨w, h⟩ | ⟨s, w, hs, h⟩
    · rw [h] at hacc; simp at hacc
    · rw [h]
      rcases setNumInner_fields it w now with ⟨f1, f2, _, f4, f5⟩
      refine ⟨f4, ?_⟩
      show (it.setNumInner w now).m_lastChanged = _
      rw [f5, f1, f2]
      by_cases he : it.m_num = w
      · simp [he]
      · have h2 : ¬(w = it.m_num ∧ it.m_str = it.m_str) := fun hc => he hc.1.symm
        rw [if_neg he, if_neg h2]
    · rw [h]
      by_cases he : s = w
      · rw [if_pos he]
        simp
      · rw [if_neg he]
        refine ⟨rfl, ?_⟩
        have hne : (some w : Option String) ≠ it.m_str := by
          rw [hs]
          intro hc
          injection hc with hc2
          exact he hc2.symm
        simp [hne]
  · intro it x now1 now2 hacc
    have heq := setValueNum_accept_eq it x now1 hacc
    have hrid : (it.setValueNum x now1).2.m_rid = it.m_rid := by
      rw [heq, setNumInner_eq]
    have hacc2 : ((it.setValueNum x now1).2.setValueNum x now2).1 = true := by
      rw [setValueNum_fst_eq_of_rid it ((it.setValueNum x now1).2) x now1 now2 hrid]
      exact hacc
    have hm : (it.setValueNum x now1).2.m_num = x := by
      rw [heq, setNumInner_eq]
    refine ⟨hacc2, (hnum _ x now2 hacc2).1, ?_, ?_⟩
    · rw [(hnum _ x now2 hacc2).2, if_pos hm]
    · intro hne
      rw [heq, setNumInner_eq]
      simp [hne]

def c2item : ResourceItem := ResourceItem.mk' (RID ApiDataType.DataTypeBool RStateOn)

/-- Witness for `c2_timestamps_amended`: two consecutive `setValue(1)`
calls on a fresh `state/on` item, at times 10 and 20. -/
theorem c2_witness :
    ((c2item.setValueNum 1 10).2.setValueNum 1 20).1 = true ∧
    ((c2item.setValueNum 1 10).2.setValueNum 1 20).2.m_lastSet = some 20 ∧
    ((c2item.setValueNum 1 10).2.setValueNum 1 20).2.m_lastChanged =
      (c2item.setValueNum 1 10).2.m_lastChanged ∧
    (c2item.m_num ≠ 1 → (c2item.setValueNum 1 10).2.m_lastChanged = some 10) :=
  c2_timestamps_amended.2.2.2 c2item 1 10 20 (by decide)

theorem find?_some_split {α : Type} (p : α → Bool) (l : List α) (a : α)
    (h : l.find? p = some a) :
    p a = true ∧ ∃ l1 l2, l = l1 ++ a :: l2 ∧ ∀ b ∈ l1, p b = false := by
  induction l with
  | nil => simp [List.find?] at h
  | cons x xs ih =>
    by_cases hx : p x
    · rw [List.find?_cons_of_pos _ hx] at h
      injection h with h
      subst h
      exact ⟨hx, [], xs, rfl, by simp⟩
    · rw [List.find?_cons_of_neg _ (by simpa using hx)] at h
      rcases ih h with ⟨hp, l1, l2, hl, hall⟩
      refine ⟨hp, x :: l1, l2, by simp [hl], ?_⟩
      intro b hb
      rcases List.mem_cons.mp hb with hb | hb
      · subst hb; simpa using hx
      · exact hall b hb

/-- The registered `config/battery` descriptor. -/
def cfgBatteryDescr : ResourceItemDescriptor := RIDR ApiDataType.DataTypeUInt8 RConfigBattery 0 100

/-- `d` is the first descriptor, in registration order, whose suffix the
candidate key ends with. -/
def isFirstSuffixMatch (str : String) (d : ResourceItemDescriptor) : Prop :=
  qEndsWith str d.suffix = true ∧
  ∃ l1 l2, rItemDescriptors = l1 ++ d :: l2 ∧ ∀ e ∈ l1, qEndsWith str e.suffix = false

/-- C3: `getResourceItemDescriptor` returns the first registered
descriptor (in registration order) whose suffix the candidate key ends
with, and fails exactly when no registered suffix is a suffix of the
candidate; concretely `"/sensors/1/state/battery"` does not end with
`"config/battery"` (and matches nothing at all), while `"config/battery"`
and `"xyz/config/battery"` both resolve to the `config/battery`
descriptor. -/
theorem c3_lookup_suffix :
    (∀ (str : String) (d : ResourceItemDescriptor),
      getResourceItemDescriptor str = some d → isFirstSuffixMatch str d) ∧
    (∀ str : String,
      getResourceItemDescriptor str = none ↔
        ∀ d ∈ rItemDescriptors, qEndsWith str d.suffix = false) ∧
    qEndsWith "/sensors/1/state/battery" "config/battery" = false ∧
    getResourceItemDescriptor "/sensors/1/state/battery" = none ∧
    getResourceItemDescriptor "config/battery" = some cfgBatteryDescr ∧
    getResourceItemDescriptor "xyz/config/battery" = some cfgBatteryDescr := by
  refine ⟨?_, ?_, by decide, by decide, by decide, by decide⟩
  · intro str d h
    exact find?_some_split _ _ _ h
  · intro str
    unfold getResourceItemDescriptor
    rw [List.find?_eq_none]
    constructor
    · intro h d hd
      simpa using h d hd
    · intro h d hd
      simp [h d hd]

/-- Witness for `c3_lookup_suffix`: the lookup of `"xyz/config/battery"`
is a first suffix match at the `config/battery` descriptor. -/
theorem c3_witness : isFirstSuffixMatch "xyz/config/battery" cfgBatteryDescr :=
  c3_lookup_suffix.1 "xyz/config/battery" cfgBatteryDescr (by decide)

theorem ediv_roundtrip (x tz : Int) : Int.ediv ((x - tz) * 1000) 1000 + tz = x := by
  have h : Int.ediv ((x - tz) * 1000) 1000 = x - tz := Int.mul_ediv_cancel _ (by norm_num)
  omega

def c4luItem : ResourceItem := ResourceItem.mk' (RID ApiDataType.DataTypeTime RStateLastUpdated)

/-- C4 counterexample: on the Time-typed `state/lastupdated` item, in an
environment with local UTC offset +3600 s, `setValue(QVariant)` of
`"2024-01-01T00:00:00"` succeeds (the string is parsed as local time) but
`toString` then formats the stored epoch milliseconds in UTC and returns
`"2023-12-31T23:00:00"`, not the original string. -/
theorem c4_counterexample :
    (c4luItem.setValueVariant (QVariant.str "2024-01-01T00:00:00") 99 3600).1 = true ∧
    (c4luItem.setValueVariant (QVariant.str "2024-01-01T00:00:00") 99 3600).2.toStringR 3600 =
      "2023-12-31T23:00:00" ∧
    ("2023-12-31T23:00:00" : String) ≠ "2024-01-01T00:00:00" := by
  refine ⟨by decide, by decide, by decide⟩

open ApiDataType in
/-- C4 (amended): for every Time-typed item whose suffix is not
`state/lastupdated` and every local UTC offset, `setVariant` of
`"2024-01-01T00:00:00"` succeeds and a following `asString` returns the
same string — both directions go through local time, not UTC; for
`state/lastupdated` the formatting side is pinned to UTC while parsing is
local, so the round trip holds there only at offset zero. -/
theorem c4_time_roundtrip_amended :
    (∀ (it : ResourceItem) (now tz : Int),
      it.m_rid.type = DataTypeTime →
      it.m_rid.suffix ≠ RStateLastUpdated →
      (∃ s0, it.m_str = some s0) →
      (it.setValueVariant (QVariant.str "2024-01-01T00:00:00") now tz).1 = true ∧
      (it.setValueVariant (QVariant.str "2024-01-01T00:00:00") now tz).2.toStringR tz =
        "2024-01-01T00:00:00") ∧
    (∀ (it : ResourceItem) (now : Int),
      it.m_rid.type = DataTypeTime →
      (∃ s0, it.m_str = some s0) →
      (it.setValueVariant (QVariant.str "2024-01-01T00:00:00") now 0).1 = true ∧
      (it.setValueVariant (QVariant.str "2024-01-01T00:00:00") now 0).2.toStringR 0 =
        "2024-01-01T00:00:00") := by
  have hparse : parseDateTime "2024-01-01T00:00:00" = some 1704067200 := by decide
  have hset : ∀ (it : ResourceItem) (now tz : Int), it.m_rid.type = DataTypeTime →
      it.setValueVariant (QVariant.str "2024-01-01T00:00:00") now tz =
        (true, it.setNumInner ((1704067200 - tz) * 1000) now) := by
    intro it now tz htime
    unfold ResourceItem.setValueVariant
    rw [if_neg (by simp), if_neg (by simp [htime]), if_neg (by simp [htime]),
      if_pos htime]
    simp [hparse]
  have hstr : ∀ (it : ResourceItem) (now tz : Int), it.m_rid.type = DataTypeTime →
      (∃ s0, it.m_str = some s0) →
      ((it.setNumInner ((1704067200 - tz) * 1000) now).toStringR tz =
        (if it.m_rid.suffix = RStateLastUpdated then
          formatDateTime (Int.ediv ((1704067200 - tz) * 1000) 1000)
        else "2024-01-01T00:00:00")) := by
    intro it now tz htime hex
    rcases hex with ⟨s0, hs⟩
    rcases setNumInner_fields it ((1704067200 - tz) * 1000) now with ⟨f1, f2, f3, _, _⟩
    by_cases hsu : it.m_rid.suffix = RStateLastUpdated
    · simp [ResourceItem.toStringR, f1, f2, f3, hs, htime, hsu]
    · simp only [ResourceItem.toStringR, f1, f2, f3, hs, htime, hsu]
      simp only [ite_true, ite_false, if_true, if_false]
      rw [if_neg (show ¬(DataTypeTime = DataTypeString ∨ DataTypeTime = DataTypeTimePattern) by simp)]
      rw [ediv_roundtrip]
      decide
  constructor
  · intro it now tz htime hsu hstr0
    refine ⟨by rw [hset it now tz htime], ?_⟩
    rw [hset it now tz htime]
    show (it.setNumInner ((1704067200 - tz) * 1000) now).toStringR tz = _
    rw [hstr it now tz htime hstr0, if_neg hsu]
  · intro it now htime hstr0
    refine ⟨by rw [hset it now 0 htime], ?_⟩
    rw [hset it now 0 htime]
    show (it.setNumInner ((1704067200 - 0) * 1000) now).toStringR 0 = _
    rw [hstr it now 0 htime hstr0]
    by_cases hsu : it.m_rid.suffix = RStateLastUpdated
    · rw [if_pos hsu]
      decide
    · rw [if_neg hsu]

def c4ltItem : ResourceItem := ResourceItem.mk' (RID ApiDataType.DataTypeTime RConfigLocalTime)

/-- Witness for `c4_time_roundtrip_amended`: the `config/localtime` item
at local offset +3600 s round-trips the string. -/
theorem c4_witness :
    (c4ltItem.setValueVariant (QVariant.str "2024-01-01T00:00:00") 7 3600).1 = true ∧
    (c4ltItem.setValueVariant (QVariant.str "2024-01-01T00:00:00") 7 3600).2.toStringR 3600 =
      "2024-01-01T00:00:00" :=
  c4_time_roundtrip_amended.1 c4ltItem 7 3600 (by decide) (by decide) ⟨"", by decide⟩

def c5item : ResourceItem := ResourceItem.mk' (RID ApiDataType.DataTypeBool RStateFlag)

/-- C5 counterexample: for rule handle 70000 (outside the `quint16`
range), the duplicate scan in `inRule` compares `70000 mod 2^16 = 4464`
against 70000, never finds the existing entry, and appends a duplicate:
two calls leave `rulesInvolved() == [70000, 70000]`, not a single
occurrence. -/
theorem c5_counterexample :
    ((c5item.inRule 70000).inRule 70000).rulesInvolved = [70000, 70000] ∧
    ((c5item.inRule 70000).inRule 70000).rulesInvolved.count 70000 ≠ 1 := by
  decide

theorem inRule_eq (it : ResourceItem) (r : Int) (hr0 : 0 ≤ r) (hr1 : r < 65536)
    (hall : ∀ e ∈ it.m_rulesInvolved, 0 ≤ e ∧ e < 65536) :
    (it.inRule r).m_rulesInvolved =
      (if r ∈ it.m_rulesInvolved then it.m_rulesInvolved
       else it.m_rulesInvolved ++ [r]) := by
  by_cases hm : r ∈ it.m_rulesInvolved
  · have hany : (it.m_rulesInvolved.any fun e => e % 65536 == r) = true := by
      rw [List.any_eq_true]
      exact ⟨r, hm, by rw [Int.emod_eq_of_lt hr0 hr1]; simp⟩
    simp [ResourceItem.inRule, hany, hm]
  · have hany : (it.m_rulesInvolved.any fun e => e % 65536 == r) = false := by
      rw [List.any_eq_false]
      intro e he
      rcases hall e he with ⟨he0, he1⟩
      rw [Int.emod_eq_of_lt he0 he1]
      simp only [beq_iff_eq]
      intro heq
      exact hm (heq ▸ he)
    simp [ResourceItem.inRule, hany, hm]

/-- C5 (amended): for rule handles in the `quint16` range `[0, 65536)` and
an item whose recorded handles are all in that range with at most one
occurrence of `r`, two `inRule(r)` calls leave exactly one occurrence of
`r`; in particular two `inRule(5)` calls on a fresh item yield `[5]`.
Outside the `quint16` range the truncating comparison appends duplicates
(see `c5_counterexample`). -/
theorem c5_inRule_amended :
    (∀ (it : ResourceItem) (r : Int),
      0 ≤ r → r < 65536 →
      (∀ e ∈ it.m_rulesInvolved, 0 ≤ e ∧ e < 65536) →
      it.m_rulesInvolved.count r ≤ 1 →
      ((it.inRule r).inRule r).rulesInvolved.count r = 1) ∧
    ((c5item.inRule 5).inRule 5).rulesInvolved = [5] := by
  constructor
  · intro it r hr0 hr1 hall hcount
    have h1 := inRule_eq it r hr0 hr1 hall
    by_cases hm : r ∈ it.m_rulesInvolved
    · rw [if_pos hm] at h1
      have h2 := inRule_eq (it.inRule r) r hr0 hr1 (by rw [h1]; exact hall)
      rw [h1, if_pos hm] at h2
      show ((it.inRule r).inRule r).m_rulesInvolved.count r = 1
      rw [h2]
      exact Nat.le_antisymm hcount (List.count_pos_iff.mpr hm)
    · rw [if_neg hm] at h1
      have hall2 : ∀ e ∈ (it.inRule r).m_rulesInvolved, 0 ≤ e ∧ e < 65536 := by
        rw [h1]
        intro e he
        rcases List.mem_append.mp he with he | he
        · exact hall e he
        · rcases List.mem_singleton.mp he with rfl
          exact ⟨hr0, hr1⟩
      have hm2 : r ∈ (it.inRule r).m_rulesInvolved := by
        rw [h1]
        exact List.mem_append.mpr (Or.inr (List.mem_singleton.mpr rfl))
      have h2 := inRule_eq (it.inRule r) r hr0 hr1 hall2
      rw [if_pos hm2] at h2
      show ((it.inRule r).inRule r).m_rulesInvolved.count r = 1
      rw [h2, h1, List.count_append, List.count_eq_zero.mpr hm]
      simp
  · decide

def c5ruleItem : ResourceItem :=
  { m_num := 0, m_numPrev := 0, m_str := none
    m_rid := RID ApiDataType.DataTypeBool RStateFlag
    m_lastSet := none, m_lastChanged := none, m_rulesInvolved := [3, 9] }

/-- Witness for `c5_inRule_amended`: handle 9 on an item already holding
handles 3 and 9 once each. -/
theorem c5_witness :
    ((c5ruleItem.inRule 9).inRule 9).rulesInvolved.count 9 = 1 :=
  c5_inRule_amended.1 c5ruleItem 9 (by decide) (by decide) (by decide) (by decide)

theorem firstIdxWith_none (p : ResourceItem → Bool) (l : List ResourceItem) :
    firstIdxWith p l = none ↔ ∀ b ∈ l, p b = false := by
  induction l with
  | nil => simp [firstIdxWith]
  | cons x xs ih =>
    by_cases hx : p x
    · simp [firstIdxWith, hx]
    · simp [firstIdxWith, hx, ih]

theorem firstIdxWith_some_split (p : ResourceItem → Bool) (l : List ResourceItem) (i : Nat)
    (h : firstIdxWith p l = some i) :
    ∃ x l1 l2, l = l1 ++ x :: l2 ∧ l1.length = i ∧ p x = true ∧ ∀ b ∈ l1, p b = false := by
  induction l generalizing i with
  | nil => simp [firstIdxWith] at h
  | cons x xs ih =>
    by_cases hx : p x
    · rw [firstIdxWith, if_pos hx] at h
      injection h with h
      exact ⟨x, [], xs, rfl, h, hx, by simp⟩
    · rw [firstIdxWith, if_neg hx] at h
      rcases Option.map_eq_some'.mp h with ⟨j, hj, hij⟩
      rcases ih j hj with ⟨y, l1, l2, hl, hlen, hp, hall⟩
      refine ⟨y, x :: l1, l2, by simp [hl], by simp [hlen, hij], hp, ?_⟩
      intro b hb
      rcases List.mem_cons.mp hb with rfl | hb
      · simpa using hx
      · exact hall b hb

theorem swap_pop_perm {α : Type} (A : List α) (a : α) (i : Nat) (h : i ≤ A.length) :
    List.Perm (((A ++ [a]).set i a).dropLast) ((A ++ [a]).eraseIdx i) := by
  rcases Nat.lt_or_ge i A.length with hi | hi
  · rw [List.set_append_left i a hi, List.dropLast_concat]
    have h1 : (A ++ [a]).take i = A.take i := List.take_append_of_le_length (le_of_lt hi)
    have h2 : (A ++ [a]).drop (i + 1) = A.drop (i + 1) ++ [a] :=
      List.drop_append_of_le_length hi
    rw [List.eraseIdx_eq_take_drop_succ, h1, h2]
    rw [List.set_eq_take_cons_drop a hi]
    exact List.Perm.append_left _ (List.perm_append_singleton a _).symm
  · have hi2 : i = A.length := le_antisymm h hi
    subst hi2
    have h1 : (A ++ [a]).take A.length = A := by simp
    have h2 : (A ++ [a]).drop (A.length + 1) = [] := List.drop_eq_nil_of_le (by simp)
    have hset : (A ++ [a]).set A.length a = A ++ [a] := by
      rw [List.set_eq_take_cons_drop a (by simp), h1, h2]
    have he : (A ++ [a]).eraseIdx A.length = A := by
      rw [List.eraseIdx_eq_take_drop_succ, h1, h2, List.append_nil]
    rw [hset, he, List.dropLast_concat]

theorem removeItem_eq (r : Resource) (s : String) (i : Nat)
    (hidx : r.itemIndex s = some i) :
    (r.removeItem s).itemCount = r.itemCount - 1 ∧
    List.Perm (r.removeItem s).m_rItems (r.m_rItems.eraseIdx i) := by
  rcases r.m_rItems.eq_nil_or_concat' with hnil | ⟨A, a, hA⟩
  · rcases firstIdxWith_some_split _ _ _ hidx with ⟨x, l1, l2, hl, _, _, _⟩
    rw [hnil] at hl
    exact absurd hl.symm (by simp)
  · have hlast : r.m_rItems.getLast? = some a := by rw [hA]; exact List.getLast?_concat A
    have hilt : i < r.m_rItems.length := by
      rcases firstIdxWith_some_split _ _ _ hidx with ⟨x, l1, l2, hl, hlen, _, _⟩
      rw [hl, ← hlen]
      simp
    have hile : i ≤ A.length := by
      rw [hA] at hilt
      simp at hilt
      omega
    have hrm : (r.removeItem s).m_rItems = (r.m_rItems.set i a).dropLast := by
      unfold Resource.removeItem
      rw [hidx, hlast]
    constructor
    · show (r.removeItem s).m_rItems.length = r.m_rItems.length - 1
      rw [hrm, List.length_dropLast, List.length_set]
    · rw [hrm, hA]
      exact swap_pop_perm A a i hile

/-- C6: the bag keeps at most one slot per suffix: `addItem` on an
already-present suffix returns the existing slot (same index/pointer,
whatever data type was requested) and leaves the bag — in particular
`itemCount` — unchanged, and both `addItem` and `removeItem` preserve the
per-suffix uniqueness invariant. -/
theorem c6_addItem_idempotent :
    (∀ (r : Resource) (t : ApiDataType) (s : String) (i : Nat),
      r.itemIndex s = some i → r.addItem t s = (some i, r)) ∧
    (∀ (r : Resource) (t : ApiDataType) (s : String) (i : Nat),
      r.itemIndex s = some i → ((r.addItem t s).2).itemCount = r.itemCount) ∧
    (∀ (r : Resource) (t : ApiDataType) (s : String),
      r.nodupSuffixes → ((r.addItem t s).2).nodupSuffixes) ∧
    (∀ (r : Resource) (s : String),
      r.nodupSuffixes → (r.removeItem s).nodupSuffixes) := by
  have hidem : ∀ (r : Resource) (t : ApiDataType) (s : String) (i : Nat),
      r.itemIndex s = some i → r.addItem t s = (some i, r) := by
    intro r t s i h
    unfold Resource.addItem
    rw [h]
  refine ⟨hidem, ?_, ?_, ?_⟩
  · intro r t s i h
    rw [hidem r t s i h]
  · intro r t s hnd
    unfold Resource.addItem
    cases hidx : r.itemIndex s with
    | some i => exact hnd
    | none =>
      cases hfind : rItemDescriptors.find? (fun d => d.suffix == s && d.type == t) with
      | none => exact hnd
      | some d =>
        have hds : d.suffix = s := by
          have := List.find?_some hfind
          simp at this
          exact this.1
        have hnotin : s ∉ r.m_rItems.map (fun it => it.m_rid.suffix) := by
          intro hmem
          rcases List.mem_map.mp hmem with ⟨b, hb, hbs⟩
          have := (firstIdxWith_none _ _).mp hidx b hb
          simp [hbs] at this
        show ((r.m_rItems ++ [ResourceItem.mk' d]).map (fun it => it.m_rid.suffix)).Nodup
        rw [List.map_append]
        rw [List.nodup_append]
        refine ⟨hnd, by simp, ?_⟩
        intro x hx hx2
        simp [ResourceItem.mk', hds] at hx2
        rw [hx2] at hx
        exact hnotin hx
  · intro r s hnd
    cases hidx : r.itemIndex s with
    | none =>
      have : r.removeItem s = r := by
        unfold Resource.removeItem
        rw [hidx]
      rw [this]
      exact hnd
    | some i =>
      have hperm := (removeItem_eq r s i hidx).2
      have hsub : List.Sublist (r.m_rItems.eraseIdx i) r.m_rItems :=
        List.eraseIdx_sublist r.m_rItems i
      have h1 : List.Perm ((r.removeItem s).m_rItems.map (fun it => it.m_rid.suffix))
          ((r.m_rItems.eraseIdx i).map (fun it => it.m_rid.suffix)) := hperm.map _
      have h2 : ((r.m_rItems.eraseIdx i).map (fun it => it.m_rid.suffix)).Nodup :=
        (hsub.map _).nodup hnd
      exact h1.nodup_iff.mpr h2

def c6bag : Resource := ⟨[ResourceItem.mk' cfgBatteryDescr]⟩

/-- Witness for `c6_addItem_idempotent`: re-adding `config/battery` (even
with a different requested data type) returns the existing slot at index 0
and the very same bag. -/
theorem c6_witness :
    c6bag.addItem ApiDataType.DataTypeBool RConfigBattery = (some 0, c6bag) :=
  c6_addItem_idempotent.1 c6bag ApiDataType.DataTypeBool RConfigBattery 0 (by decide)

/-- C7: removing a present suffix swaps the slot with the last element and
shrinks the bag by one — the surviving slots are exactly the original ones
minus the removed slot, up to order — and a subsequent `item(suffix)`
lookup reports "not present". -/
theorem c7_removeItem :
    ∀ (r : Resource) (s : String) (i : Nat),
      r.nodupSuffixes →
      r.itemIndex s = some i →
      (r.removeItem s).itemCount = r.itemCount - 1 ∧
      List.Perm (r.removeItem s).m_rItems (r.m_rItems.eraseIdx i) ∧
      (r.removeItem s).item s = none := by
  intro r s i hnd hidx
  refine ⟨(removeItem_eq r s i hidx).1, (removeItem_eq r s i hidx).2, ?_⟩
  rcases firstIdxWith_some_split _ _ _ hidx with ⟨x, l1, l2, hl, hlen, hp, hall⟩
  have herase : r.m_rItems.eraseIdx i = l1 ++ l2 := by
    rw [hl, ← hlen, List.eraseIdx_eq_take_drop_succ]
    have h1 : (l1 ++ x :: l2).take l1.length = l1 := by simp
    have h2 : (l1 ++ x :: l2).drop (l1.length + 1) = l2 := by
      have hsplit : l1 ++ x :: l2 = (l1 ++ [x]) ++ l2 := by simp
      have hlen2 : (l1 ++ [x]).length = l1.length + 1 := by simp
      rw [hsplit, ← hlen2]
      exact List.drop_left (l1 ++ [x]) l2
    rw [h1, h2]
  have hxs : x.m_rid.suffix = s := by simpa using hp
  have hmem : ∀ b ∈ l1 ++ l2, b.m_rid.suffix ≠ s := by
    intro b hb
    rcases List.mem_append.mp hb with hb | hb
    · have := hall b hb
      simpa using this
    · intro hbs
      have hmap : (r.m_rItems.map (fun it => it.m_rid.suffix)).Nodup := hnd
      rw [hl, List.map_append, List.map_cons] at hmap
      have hsub : List.Sublist (x.m_rid.suffix :: l2.map (fun it => it.m_rid.suffix))
          (l1.map (fun it => it.m_rid.suffix) ++
            x.m_rid.suffix :: l2.map (fun it => it.m_rid.suffix)) :=
        List.sublist_append_right _ _
      have hnm : (x.m_rid.suffix :: l2.map (fun it => it.m_rid.suffix)).Nodup :=
        hsub.nodup hmap
      have hnotin : x.m_rid.suffix ∉ l2.map (fun it => it.m_rid.suffix) :=
        (List.nodup_cons.mp hnm).1
      exact hnotin (List.mem_map.mpr ⟨b, hb, hbs.trans hxs.symm⟩)
  show (r.removeItem s).m_rItems.find? (fun it => it.m_rid.suffix == s) = none
  rw [List.find?_eq_none]
  intro b hb
  have hb2 : b ∈ r.m_rItems.eraseIdx i :=
    ((removeItem_eq r s i hidx).2.mem_iff).mp hb
  rw [herase] at hb2
  simpa using hmem b hb2

def c7bag : Resource :=
  ⟨[ResourceItem.mk' cfgBatteryDescr, ResourceItem.mk' (RID ApiDataType.DataTypeBool RStateOn)]⟩

/-- Witness for `c7_removeItem`: removing `config/battery` from a two-item
bag leaves one item and the suffix is no longer found. -/
theorem c7_witness :
    (c7bag.removeItem RConfigBattery).itemCount = c7bag.itemCount - 1 ∧
    List.Perm (c7bag.removeItem RConfigBattery).m_rItems (c7bag.m_rItems.eraseIdx 0) ∧
    (c7bag.removeItem RConfigBattery).item RConfigBattery = none :=
  c7_removeItem c7bag RConfigBattery 0
    (by show (c7bag.m_rItems.map (fun it => it.m_rid.suffix)).Nodup; decide) (by decide)

/-- Tag of the value a `QVariant` holds (its `userType`, coarsely). -/
def QVariant.vkind : QVariant → Nat
  | .invalid => 0
  | .str _ => 1
  | .boolV _ => 2
  | .intV _ => 3
  | .doubleV _ => 4
  | .dateTime _ => 5

open ApiDataType in
/-- The `QVariant` tag `toVariant` is specified to produce for a slot of
the given declared type: a string for String/TimePattern, a formatted time
string for Time, a boolean for Bool, and a double for the numeric rest. -/
def declaredVKind (t : ApiDataType) : Nat :=
  if t = DataTypeString ∨ t = DataTypeTimePattern ∨ t = DataTypeTime then 1
  else if t = DataTypeBool then 2
  else 4

open ApiDataType in
/-- C8: `toVariant` is the empty/unset variant exactly when `lastSet` is
unset; a freshly constructed slot reports empty; whenever `lastSet` is
set the returned variant's tag reflects the descriptor's declared type
(with Time slots yielding the formatted time string); and
`setValue(QVariant())` reports success and clears both timestamps. -/
theorem c8_toVariant :
    (∀ (it : ResourceItem) (tz : Int),
      it.toVariant tz = QVariant.invalid ↔ it.m_lastSet = none) ∧
    (∀ (d : ResourceItemDescriptor) (tz : Int),
      (ResourceItem.mk' d).toVariant tz = QVariant.invalid) ∧
    (∀ (it : ResourceItem) (tz : Int),
      it.m_lastSet ≠ none →
      (it.toVariant tz).vkind = declaredVKind it.m_rid.type ∧
      (it.m_rid.type = DataTypeTime →
        it.toVariant tz = QVariant.str (it.toStringR tz))) ∧
    (∀ (it : ResourceItem) (now tz : Int),
      it.setValueVariant QVariant.invalid now tz =
        (true, { it with m_lastSet := none, m_lastChanged := none })) := by
  refine ⟨?_, ?_, ?_, ?_⟩
  · intro it tz
    unfold ResourceItem.toVariant
    by_cases hls : it.m_lastSet = none
    · simp [hls]
    · rw [if_neg hls]
      simp only [hls, iff_false]
      split_ifs with h1 h2 h3
      · cases hs : it.m_str <;> simp
      · simp
      · simp
      · simp
  · intro d tz
    unfold ResourceItem.toVariant
    rw [if_pos (show (ResourceItem.mk' d).m_lastSet = none from rfl)]
  · intro it tz hls
    unfold ResourceItem.toVariant
    rw [if_neg hls]
    constructor
    · by_cases h1 : it.m_rid.type = DataTypeString ∨ it.m_rid.type = DataTypeTimePattern
      · rw [if_pos h1]
        have hd : declaredVKind it.m_rid.type = 1 := by
          unfold declaredVKind
          rcases h1 with h | h <;> rw [if_pos (by simp [h])]
        rw [hd]
        cases hs : it.m_str <;> rfl
      · rw [if_neg h1]
        by_cases h2 : it.m_rid.type = DataTypeBool
        · rw [if_pos h2]
          unfold declaredVKind
          rw [if_neg (by simp [h2]), if_pos h2]
          rfl
        · rw [if_neg h2]
          by_cases h3 : it.m_rid.type = DataTypeTime
          · rw [if_pos h3]
            unfold declaredVKind
            rw [if_pos (by simp [h3])]
            rfl
          · rw [if_neg h3]
            unfold declaredVKind
            rw [if_neg (by simp [h1, h3]), if_neg h2]
            rfl
    · intro htime
      rw [if_neg (by simp [htime]), if_neg (by simp [htime]), if_pos htime]
  · intro it now tz
    unfold ResourceItem.setValueVariant
    rw [if_pos rfl]

def c8item : ResourceItem :=
  { ResourceItem.mk' cfgBatteryDescr with m_lastSet := some 4 }

/-- Witness for `c8_toVariant`: a written `config/battery` slot reports a
double-tagged variant, matching its UInt8 declared type. -/
theorem c8_witness :
    (c8item.toVariant 0).vkind = declaredVKind c8item.m_rid.type ∧
    (c8item.m_rid.type = ApiDataType.DataTypeTime →
      c8item.toVariant 0 = QVariant.str (c8item.toStringR 0)) :=
  c8_toVariant.2.2.1 c8item 0 (by decide)

/-- C9: `addItem` with a suffix not present in the bag and no exact
`(dataType, suffix)` catalog entry returns the null pointer (after the
`DBG_Assert`/diagnostic) and leaves the bag unchanged: same `itemCount`,
and `item(suffix)` still reports "not present". -/
theorem c9_addItem_unknown :
    ∀ (r : Resource) (t : ApiDataType) (s : String),
      r.itemIndex s = none →
      rItemDescriptors.find? (fun d => d.suffix == s && d.type == t) = none →
      r.addItem t s = (none, r) ∧
      ((r.addItem t s).2).itemCount = r.itemCount ∧
      ((r.addItem t s).2).item s = none := by
  intro r t s hidx hfind
  have haddeq : r.addItem t s = (none, r) := by
    unfold Resource.addItem
    rw [hidx, hfind]
  have hitem : r.item s = none := by
    show r.m_rItems.find? _ = none
    rw [List.find?_eq_none]
    intro b hb
    have hfalse := (firstIdxWith_none _ _).mp hidx b hb
    simp [hfalse]
  exact ⟨haddeq, by rw [haddeq], by rw [haddeq]; exact hitem⟩

def c9bag : Resource := ⟨[ResourceItem.mk' (RID ApiDataType.DataTypeBool RStateOn)]⟩

/-- Witness for `c9_addItem_unknown`: `state/battery` is registered
nowhere in the catalog, so adding it to a one-item bag is a no-op
returning null. -/
theorem c9_witness :
    c9bag.addItem ApiDataType.DataTypeBool "state/battery" = (none, c9bag) ∧
    ((c9bag.addItem ApiDataType.DataTypeBool "state/battery").2).itemCount = c9bag.itemCount ∧
    ((c9bag.addItem ApiDataType.DataTypeBool "state/battery").2).item "state/battery" = none :=
  c9_addItem_unknown c9bag ApiDataType.DataTypeBool "state/battery" (by decide) (by decide)

/-- C10: `setValue(QVariant())` touches only the two timestamps: the call
succeeds, the stored numeric value, previous numeric value and string
buffer are unchanged — so `toNumber`, `toNumberPrevious`, `toBool` and
`toString` return exactly what they returned before — and both `lastSet`
and `lastChanged` end up cleared. -/
theorem c10_clear_frame :
    ∀ (it : ResourceItem) (now tz tz2 : Int),
      (it.setValueVariant QVariant.invalid now tz).1 = true ∧
      (it.setValueVariant QVariant.invalid now tz).2.toNumber = it.toNumber ∧
      (it.setValueVariant QVariant.invalid now tz).2.toNumberPrevious = it.toNumberPrevious ∧
      (it.setValueVariant QVariant.invalid now tz).2.toBoolR = it.toBoolR ∧
      (it.setValueVariant QVariant.invalid now tz).2.toStringR tz2 = it.toStringR tz2 ∧
      (it.setValueVariant QVariant.invalid now tz).2.m_num = it.m_num ∧
      (it.setValueVariant QVariant.invalid now tz).2.m_numPrev = it.m_numPrev ∧
      (it.setValueVariant QVariant.invalid now tz).2.m_str = it.m_str ∧
      (it.setValueVariant QVariant.invalid now tz).2.m_lastSet = none ∧
      (it.setValueVariant QVariant.invalid now tz).2.m_lastChanged = none := by
  intro it now tz tz2
  have h : it.setValueVariant QVariant.invalid now tz =
      (true, { it with m_lastSet := none, m_lastChanged := none }) := by
    unfold ResourceItem.setValueVariant
    rw [if_pos rfl]
  rw [h]
  exact ⟨rfl, rfl, rfl, rfl, rfl, rfl, rfl, rfl, rfl, rfl⟩
